import Mathlib

/-!
Shallow embedding of the martech-cron-agent lead qualification and nurture
pipeline (src/socialmedia.py, src/nurture.py, src/contentGen.py).

Modelling conventions:
- Python floats are modelled by exact rationals.
- datetime values are integers counting seconds; timedelta(days=n) is
  n * 86400 seconds and timedelta(hours=n) is n * 3600 seconds.
- Python dicts with a fixed key set become structures; dicts used as maps
  become association lists.
- Every external collaborator (CRM client, GPT API, social poster) is an
  oracle function supplied as a parameter; calls that can raise return
  Except. Methods record the collaborator calls they issue in a trace list,
  in program order; a raised exception aborts the method, so the trace holds
  exactly the calls issued up to and including the failing one.
-/

namespace Martech

/-- Seconds in a timedelta of n days. -/
def timedelta_days (n : ℤ) : ℤ := n * 86400

/-- Seconds in a timedelta of n hours. -/
def timedelta_hours (n : ℤ) : ℤ := n * 3600

/-- Generic Python dict payload whose contents this core never inspects. -/
abbrev PyDict := List (String × String)

/-- Prospect dataclass from src/socialmedia.py. -/
structure Prospect where
  company_name : String
  industry : String
  employee_count : ℤ
  decision_makers : List PyDict
  linkedin_url : String
  estimated_revenue : Option ℚ
deriving DecidableEq

/-- InterestLevel enum from src/socialmedia.py. -/
inductive InterestLevel where
  | NONE
  | LOW
  | MEDIUM
  | HIGH
deriving DecidableEq

/-- Numeric value of the InterestLevel enum member. -/
def InterestLevel.value : InterestLevel → ℚ
  | .NONE => 0
  | .LOW => 1
  | .MEDIUM => 2
  | .HIGH => 3

/-- Name of the InterestLevel enum member. -/
def InterestLevel.enumName : InterestLevel → String
  | .NONE => "NONE"
  | .LOW => "LOW"
  | .MEDIUM => "MEDIUM"
  | .HIGH => "HIGH"

/-- Response dataclass from src/socialmedia.py. -/
structure Response where
  prospect : Prospect
  platform : String
  content : String
  interest_level : InterestLevel
  timestamp : ℤ
  is_decision_maker : Bool
deriving DecidableEq

/-- The weights entry of the qualification rules dict. -/
structure QualificationWeights where
  interest_level : ℚ
  company_size : ℚ
  decision_maker : ℚ
deriving DecidableEq

/-- The minimum_scores entry of the qualification rules dict (unused by the
router logic, kept for fidelity to LeadRouter._default_rules). -/
structure MinimumScores where
  fast_track : ℚ
  normal : ℚ
  nurture : ℚ
deriving DecidableEq

/-- Qualification rules dict held by a LeadRouter. -/
structure QualificationRules where
  weights : QualificationWeights
  minimum_scores : MinimumScores
deriving DecidableEq

/-- LeadRouter._default_rules from src/socialmedia.py. -/
def default_rules : QualificationRules :=
  { weights := { interest_level := 0.4, company_size := 0.3, decision_maker := 0.3 },
    minimum_scores := { fast_track := 0.8, normal := 0.6, nurture := 0.4 } }

/-- The qualification_criteria dict passed to process_responses. The code
reads only minimum_score (with .get default 0.7); callers such as main.py
also pass interest_level and decision_maker entries. -/
structure QualificationCriteria where
  minimum_score : Option ℚ
  interest_level : Option String
  decision_maker : Option Bool
deriving DecidableEq

/-- LeadRouter._score_response from src/socialmedia.py:319-342. -/
def score_response (rules : QualificationRules) (response : Response) : ℚ :=
  let weights := rules.weights
  let score : ℚ := 0.0
  let score := score + weights.interest_level * response.interest_level.value / 3
  let employee_count := response.prospect.employee_count
  let score :=
    if employee_count > 500 then score + weights.company_size * 1.0
    else if employee_count > 100 then score + weights.company_size * 0.7
    else score + weights.company_size * 0.3
  let score := if response.is_decision_maker then score + weights.decision_maker else score
  min score 1.0

/-- The lead_data dict built by LeadRouter._prepare_lead_data. -/
structure LeadData where
  company : String
  industry : String
  employee_count : ℤ
  estimated_revenue : Option ℚ
  linkedin_url : String
  interest_level : String
  initial_response : String
  platform : String
  response_time : ℤ
  decision_maker : Bool
deriving DecidableEq

/-- A collaborator call issued by the LeadRouter. The router's only real
external call is crm_client.create_contact; _initiate_nurture_sequence and
_send_sdr_notification have empty stub bodies in the source. -/
inductive RouterCall where
  | create_contact (lead_data : LeadData)
deriving DecidableEq

/-- The contact record returned by crm_client.create_contact; the code reads
its id field for the SDR notification. -/
structure CrmContact where
  id : ℤ
deriving DecidableEq

/-- LeadRouter._prepare_lead_data from src/socialmedia.py:361-376. It issues
no collaborator call, so its trace is empty. -/
def prepare_lead_data (response : Response) : List RouterCall × LeadData :=
  ([],
   { company := response.prospect.company_name,
     industry := response.prospect.industry,
     employee_count := response.prospect.employee_count,
     estimated_revenue := response.prospect.estimated_revenue,
     linkedin_url := response.prospect.linkedin_url,
     interest_level := response.interest_level.enumName,
     initial_response := response.content,
     platform := response.platform,
     response_time := response.timestamp,
     decision_maker := response.is_decision_maker })

/-- LeadRouter._route_to_sdr from src/socialmedia.py:378-394: create the CRM
contact, then send the SDR notification (a stub). A create_contact failure is
logged and re-raised. -/
def route_to_sdr {ε : Type} (crm_create_contact : LeadData → Except ε CrmContact)
    (lead_data : LeadData) : List RouterCall × Except ε Unit :=
  match crm_create_contact lead_data with
  | .error e => ([RouterCall.create_contact lead_data], .error e)
  | .ok _crm_contact => ([RouterCall.create_contact lead_data], .ok ())

/-- LeadRouter.process_responses from src/socialmedia.py:294-317. Returns the
collaborator calls issued together with either the accumulated qualified
lead list or the first propagated error. -/
def process_responses {ε : Type} (crm_create_contact : LeadData → Except ε CrmContact)
    (rules : QualificationRules) (qualification_criteria : QualificationCriteria) :
    List Response → List RouterCall × Except ε (List LeadData)
  | [] => ([], .ok [])
  | response :: rest =>
    let score := score_response rules response
    if score ≥ qualification_criteria.minimum_score.getD 0.7 then
      let prep := prepare_lead_data response
      let lead_data := prep.2
      let routed : List RouterCall × Except ε Unit :=
        if response.is_decision_maker then route_to_sdr crm_create_contact lead_data
        else ([], .ok ())
      match routed with
      | (calls, .error e) => (prep.1 ++ calls, .error e)
      | (calls, .ok ()) =>
        let next := process_responses crm_create_contact rules qualification_criteria rest
        (prep.1 ++ calls ++ next.1, next.2.map (fun leads => lead_data :: leads))
    else
      process_responses crm_create_contact rules qualification_criteria rest

/-- Claim C1: when each qualification weight lies in the interval from 0 to 1,
the score of any response lies in that interval as well; the upper bound comes
from the final clamp with min, so it holds no matter how large the nominal
weighted sum is. -/
theorem score_response_mem_unit_interval (rules : QualificationRules) (response : Response)
    (hi0 : 0 ≤ rules.weights.interest_level) (hi1 : rules.weights.interest_level ≤ 1)
    (hc0 : 0 ≤ rules.weights.company_size) (hc1 : rules.weights.company_size ≤ 1)
    (hd0 : 0 ≤ rules.weights.decision_maker) (hd1 : rules.weights.decision_maker ≤ 1) :
    0 ≤ score_response rules response ∧ score_response rules response ≤ 1 := by
  have hv0 : 0 ≤ response.interest_level.value := by
    cases response.interest_level <;> norm_num [InterestLevel.value]
  constructor
  · have hterm : 0 ≤ rules.weights.interest_level * response.interest_level.value / 3 := by
      positivity
    simp only [score_response]
    apply le_min _ (by norm_num)
    split_ifs <;> nlinarith
  · simp only [score_response]
    exact (min_le_right _ (1.0 : ℚ)).trans (by norm_num)

/-- Witness for claim C1 at the default rules and a concrete response. -/
theorem score_response_mem_unit_interval_witness :
    0 ≤ score_response default_rules
        { prospect := { company_name := "Acme", industry := "retail", employee_count := 10,
                        decision_makers := [], linkedin_url := "url", estimated_revenue := none },
          platform := "linkedin", content := "hello", interest_level := .NONE,
          timestamp := 0, is_decision_maker := false } ∧
    score_response default_rules
        { prospect := { company_name := "Acme", industry := "retail", employee_count := 10,
                        decision_makers := [], linkedin_url := "url", estimated_revenue := none },
          platform := "linkedin", content := "hello", interest_level := .NONE,
          timestamp := 0, is_decision_maker := false } ≤ 1 :=
  score_response_mem_unit_interval default_rules _
    (by norm_num [default_rules]) (by norm_num [default_rules])
    (by norm_num [default_rules]) (by norm_num [default_rules])
    (by norm_num [default_rules]) (by norm_num [default_rules])

/-- Claim C2: under non-negative weights, raising the interest level of a
response (all other fields fixed) never lowers its score, and setting the
decision-maker flag never lowers the score compared to the unset flag. -/
theorem score_response_monotone (rules : QualificationRules) (response : Response)
    (l1 l2 : InterestLevel)
    (hi0 : 0 ≤ rules.weights.interest_level) (hc0 : 0 ≤ rules.weights.company_size)
    (hd0 : 0 ≤ rules.weights.decision_maker)
    (hl : l1.value < l2.value) :
    score_response rules { response with interest_level := l1 }
      ≤ score_response rules { response with interest_level := l2 } ∧
    score_response rules { response with is_decision_maker := false }
      ≤ score_response rules { response with is_decision_maker := true } := by
  have hmul : rules.weights.interest_level * l1.value / 3
      ≤ rules.weights.interest_level * l2.value / 3 := by
    have := mul_le_mul_of_nonneg_left hl.le hi0
    linarith
  constructor
  · simp only [score_response]
    refine min_le_min ?_ le_rfl
    split_ifs <;> linarith
  · simp only [score_response, Bool.false_eq_true, if_false, if_true]
    refine min_le_min ?_ le_rfl
    split_ifs <;> linarith

/-- Witness for claim C2 at the default rules, a concrete response, and the
interest levels NONE and HIGH. -/
theorem score_response_monotone_witness :
    score_response default_rules
        { prospect := { company_name := "Acme", industry := "retail", employee_count := 10,
                        decision_makers := [], linkedin_url := "url", estimated_revenue := none },
          platform := "linkedin", content := "hello", interest_level := .NONE,
          timestamp := 0, is_decision_maker := false }
      ≤ score_response default_rules
        { prospect := { company_name := "Acme", industry := "retail", employee_count := 10,
                        decision_makers := [], linkedin_url := "url", estimated_revenue := none },
          platform := "linkedin", content := "hello", interest_level := .HIGH,
          timestamp := 0, is_decision_maker := false } ∧
    score_response default_rules
        { prospect := { company_name := "Acme", industry := "retail", employee_count := 10,
                        decision_makers := [], linkedin_url := "url", estimated_revenue := none },
          platform := "linkedin", content := "hello", interest_level := .NONE,
          timestamp := 0, is_decision_maker := false }
      ≤ score_response default_rules
        { prospect := { company_name := "Acme", industry := "retail", employee_count := 10,
                        decision_makers := [], linkedin_url := "url", estimated_revenue := none },
          platform := "linkedin", content := "hello", interest_level := .NONE,
          timestamp := 0, is_decision_maker := true } :=
  score_response_monotone default_rules
    { prospect := { company_name := "Acme", industry := "retail", employee_count := 10,
                    decision_makers := [], linkedin_url := "url", estimated_revenue := none },
      platform := "linkedin", content := "hello", interest_level := .NONE,
      timestamp := 0, is_decision_maker := false }
    .NONE .HIGH
    (by norm_num [default_rules]) (by norm_num [default_rules]) (by norm_num [default_rules])
    (by norm_num [InterestLevel.value])

/-- A concrete prospect reused by several witnesses. -/
def acme_prospect : Prospect :=
  { company_name := "Acme", industry := "retail", employee_count := 10,
    decision_makers := [], linkedin_url := "url", estimated_revenue := none }

/-- A concrete no-interest small-company non-decision-maker response. -/
def response_none_small : Response :=
  { prospect := acme_prospect, platform := "linkedin", content := "hello",
    interest_level := .NONE, timestamp := 0, is_decision_maker := false }

/-- A concrete high-interest large-company decision-maker response. -/
def response_high_dm : Response :=
  { prospect := { company_name := "Big", industry := "retail", employee_count := 600,
                  decision_makers := [], linkedin_url := "url2", estimated_revenue := some 1000000 },
    platform := "linkedin", content := "interested", interest_level := .HIGH,
    timestamp := 5, is_decision_maker := true }

/-- A CRM oracle whose create_contact always succeeds. -/
def crm_ok : LeadData → Except String CrmContact := fun _ => .ok { id := 1 }

/-- A CRM oracle whose create_contact always fails. -/
def crm_fail : LeadData → Except String CrmContact := fun _ => .error "boom"

/-- Two lists of responses that agree from some point on are processed
identically from that point on: processing a prefix is oblivious to the tail
except through the recursive call. -/
theorem process_responses_tail_congr {ε : Type}
    (crm : LeadData → Except ε CrmContact) (rules : QualificationRules)
    (criteria : QualificationCriteria) (zs zs' : List Response)
    (h : process_responses crm rules criteria zs = process_responses crm rules criteria zs') :
    ∀ xs, process_responses crm rules criteria (xs ++ zs)
        = process_responses crm rules criteria (xs ++ zs') := by
  intro xs
  induction xs with
  | nil => simpa using h
  | cons x xs ih => simp only [List.cons_append, process_responses, List.append_eq, ih]

/-- A Response with interest_level NONE, ten employees and no decision-maker
flag; all remaining fields arbitrary. -/
def none_level_response (p_name p_industry : String) (dms : List PyDict) (url : String)
    (rev : Option ℚ) (platform content : String) (ts : ℤ) : Response :=
  { prospect := { company_name := p_name, industry := p_industry, employee_count := 10,
                  decision_makers := dms, linkedin_url := url, estimated_revenue := rev },
    platform := platform, content := content, interest_level := .NONE,
    timestamp := ts, is_decision_maker := false }

/-- Claim C3, counterexample: with the default weights, the NONE-interest,
ten-employee, non-decision-maker response scores 9/100 rather than 0, and for
minimum_score 1/20 (which is strictly greater than 0) process_responses still
returns it as a qualified lead rather than rejecting it. -/
theorem none_response_score_not_zero :
    score_response default_rules response_none_small ≠ 0 ∧
    (process_responses crm_ok default_rules
        { minimum_score := some (1/20), interest_level := none, decision_maker := none }
        [response_none_small]).2
      = .ok [(prepare_lead_data response_none_small).2] := by
  constructor
  · norm_num [score_response, response_none_small, acme_prospect, default_rules,
      InterestLevel.value, min_def]
  · with_unfolding_all rfl

/-- Claim C3 as amended: with the default weights the NONE-interest,
ten-employee, non-decision-maker response scores exactly 9/100 (the
company-size branch still contributes 0.3 * 0.3), and process_responses
excludes it from the returned qualified-leads list whenever the effective
minimum_score is strictly greater than 9/100. -/
theorem none_response_scores_nine_hundredths_and_excluded {ε : Type}
    (crm : LeadData → Except ε CrmContact) (criteria : QualificationCriteria)
    (p_name p_industry : String) (dms : List PyDict) (url : String) (rev : Option ℚ)
    (platform content : String) (ts : ℤ)
    (hmin : 9/100 < criteria.minimum_score.getD 0.7) :
    score_response default_rules
        (none_level_response p_name p_industry dms url rev platform content ts) = 9/100 ∧
    ∀ xs ys,
      process_responses crm default_rules criteria
          (xs ++ none_level_response p_name p_industry dms url rev platform content ts :: ys)
        = process_responses crm default_rules criteria (xs ++ ys) := by
  have hscore : score_response default_rules
      (none_level_response p_name p_industry dms url rev platform content ts) = 9/100 := by
    norm_num [score_response, none_level_response, default_rules, InterestLevel.value, min_def]
  refine ⟨hscore, ?_⟩
  intro xs ys
  apply process_responses_tail_congr
  simp only [process_responses, hscore]
  rw [if_neg (not_le.mpr hmin)]

/-- Witness for the amended claim C3 at a fully concrete instance. -/
theorem none_response_excluded_witness :
    score_response default_rules
        (none_level_response "Acme" "retail" [] "url" none "linkedin" "hello" 0) = 9/100 ∧
    ∀ xs ys,
      process_responses crm_ok default_rules
          { minimum_score := some 0.7, interest_level := none, decision_maker := none }
          (xs ++ none_level_response "Acme" "retail" [] "url" none "linkedin" "hello" 0 :: ys)
        = process_responses crm_ok default_rules
          { minimum_score := some 0.7, interest_level := none, decision_maker := none } (xs ++ ys) :=
  none_response_scores_nine_hundredths_and_excluded crm_ok
    { minimum_score := some 0.7, interest_level := none, decision_maker := none }
    "Acme" "retail" [] "url" none "linkedin" "hello" 0 (by norm_num)

/-- Claim C4: if the CRM create_contact call fails on a qualified
decision-maker response, process_responses propagates that error to the
caller for any surrounding batch whose prefix had succeeded, so the qualified
leads accumulated from the prefix are not delivered. -/
theorem process_responses_error_propagates {ε : Type}
    (crm : LeadData → Except ε CrmContact) (rules : QualificationRules)
    (criteria : QualificationCriteria) (r : Response) (e : ε)
    (hq : score_response rules r ≥ criteria.minimum_score.getD 0.7)
    (hdm : r.is_decision_maker = true)
    (hfail : crm (prepare_lead_data r).2 = .error e) :
    ∀ xs ys (l : List LeadData),
      (process_responses crm rules criteria xs).2 = .ok l →
      (process_responses crm rules criteria (xs ++ r :: ys)).2 = .error e := by
  intro xs
  induction xs with
  | nil =>
    intro ys l _
    simp only [List.nil_append, process_responses, if_pos hq, hdm, if_true, route_to_sdr, hfail]
  | cons x xs ih =>
    intro ys l hok
    simp only [List.cons_append, process_responses, List.append_eq] at hok ⊢
    by_cases hx : score_response rules x ≥ criteria.minimum_score.getD 0.7
    · rw [if_pos hx] at hok ⊢
      cases hxdm : x.is_decision_maker with
      | false =>
        simp only [hxdm, Bool.false_eq_true, if_false] at hok ⊢
        cases hnext : (process_responses crm rules criteria xs).2 with
        | error e' => simp [hnext, Except.map] at hok
        | ok l' => simp [ih ys l' hnext, Except.map]
      | true =>
        simp only [hxdm, if_true, route_to_sdr] at hok ⊢
        cases hcall : crm (prepare_lead_data x).2 with
        | error e' => simp [hcall] at hok
        | ok c =>
          simp only [hcall] at hok ⊢
          cases hnext : (process_responses crm rules criteria xs).2 with
          | error e' => simp [hnext, Except.map] at hok
          | ok l' => simp [ih ys l' hnext, Except.map]
    · rw [if_neg hx] at hok ⊢
      exact ih ys l hok

/-- Witness for claim C4: a failing CRM oracle on a single qualified
decision-maker response yields the propagated error. -/
theorem process_responses_error_propagates_witness :
    (process_responses crm_fail default_rules
        { minimum_score := some 0.7, interest_level := none, decision_maker := none }
        [response_high_dm]).2 = .error "boom" :=
  process_responses_error_propagates crm_fail default_rules
    { minimum_score := some 0.7, interest_level := none, decision_maker := none }
    response_high_dm "boom" (by with_unfolding_all decide) rfl rfl [] [] [] rfl

/-- Claim C10: qualification_criteria influences process_responses only
through its minimum_score entry; two criteria with the same minimum_score but
different interest_level and decision_maker entries yield identical qualified
leads and identical collaborator call traces. -/
theorem process_responses_criteria_noninterference {ε : Type}
    (crm : LeadData → Except ε CrmContact) (rules : QualificationRules)
    (c1 c2 : QualificationCriteria) (h : c1.minimum_score = c2.minimum_score) :
    ∀ responses, process_responses crm rules c1 responses
        = process_responses crm rules c2 responses := by
  intro responses
  induction responses with
  | nil => rfl
  | cons r rest ih => simp only [process_responses, h, ih]

/-- Witness for claim C10 at concrete criteria differing in interest_level
and decision_maker but agreeing on minimum_score. -/
theorem process_responses_criteria_noninterference_witness :
    process_responses crm_ok default_rules
        { minimum_score := some 0.7, interest_level := some "high", decision_maker := some true }
        [response_high_dm, response_none_small]
      = process_responses crm_ok default_rules
        { minimum_score := some 0.7, interest_level := some "low", decision_maker := some false }
        [response_high_dm, response_none_small] :=
  process_responses_criteria_noninterference crm_ok default_rules _ _ rfl _

/-- One entry of the NurtureSequence.sequence_steps tables in src/nurture.py:
a delay from sequence start, a step type and a content template id. -/
structure SequenceStep where
  delay : ℤ
  step_type : String
  template : String
deriving DecidableEq

/-- NurtureSequence.sequence_steps from src/nurture.py:17-69, a dict from
intent tier to step list; indexing an unknown tier raises KeyError. -/
def sequence_steps : String → Option (List SequenceStep)
  | "high_intent" => some
      [{ delay := timedelta_days 1, step_type := "personalized_content", template := "value_proposition" },
       { delay := timedelta_days 3, step_type := "case_study", template := "industry_specific" },
       { delay := timedelta_days 7, step_type := "demo_invitation", template := "product_demo" }]
  | "medium_intent" => some
      [{ delay := timedelta_days 2, step_type := "educational_content", template := "industry_insights" },
       { delay := timedelta_days 5, step_type := "social_proof", template := "testimonials" },
       { delay := timedelta_days 10, step_type := "value_proposition", template := "cost_savings" }]
  | "low_intent" => some
      [{ delay := timedelta_days 3, step_type := "thought_leadership", template := "industry_trends" },
       { delay := timedelta_days 7, step_type := "educational_content", template := "best_practices" },
       { delay := timedelta_days 14, step_type := "soft_pitch", template := "discovery_invitation" }]
  | _ => none

/-- A collaborator call issued by a NurtureSequence method, in program
order: Pipedrive CRM writes, content generation, and social posting. -/
inductive NurtureCall where
  | create_organization (lead_data : LeadData)
  | create_person (lead_data : LeadData) (organization_id : ℤ)
  | create_deal (lead_data : LeadData) (person_id : ℤ) (org_id : ℤ)
  | create_activity (deal_id : ℤ) (activity_type : String) (subject : String) (due_date : ℤ)
  | add_note (deal_id : ℤ) (content : String)
  | generate_content (lead_data : LeadData)
  | schedule_posts (platform : String) (content : String) (schedule_time : ℤ)
deriving DecidableEq

/-- Oracles for the collaborators a NurtureSequence talks to: the Pipedrive
client, the content generator (via _generate_step_content) and the social
poster. Each call may fail with an error of type ε. -/
structure NurtureEnv (ε : Type) where
  create_organization : LeadData → Except ε ℤ
  create_person : LeadData → ℤ → Except ε ℤ
  create_deal : LeadData → ℤ → ℤ → Except ε ℤ
  create_activity : ℤ → String → String → ℤ → Except ε Unit
  add_note : ℤ → String → Except ε Unit
  generate_step_content : LeadData → Except ε String
  schedule_posts : String → ℤ → Except ε Unit

/-- The result of initiate_sequence: either the new sequence id, a KeyError
from indexing sequence_steps with an unknown tier, or a collaborator error. -/
inductive NurtureError (ε : Type) where
  | key_error (key : String)
  | external (e : ε)
deriving DecidableEq

/-- NurtureSequence._schedule_step from src/nurture.py:104-141: create the
tracking activity, generate the step content, deliver content-bearing step
types through the social poster, then note the scheduling on the deal. -/
def schedule_step {ε : Type} (env : NurtureEnv ε) (step : SequenceStep)
    (lead_data : LeadData) (deal_id : ℤ) (execution_time : ℤ) :
    List NurtureCall × Except ε Unit :=
  let activity_subject := "Nurture Step: " ++ step.step_type
  let t1 := [NurtureCall.create_activity deal_id step.step_type activity_subject execution_time]
  match env.create_activity deal_id step.step_type activity_subject execution_time with
  | .error e => (t1, .error e)
  | .ok _ =>
    let t2 := t1 ++ [NurtureCall.generate_content lead_data]
    match env.generate_step_content lead_data with
    | .error e => (t2, .error e)
    | .ok content =>
      let posting : List NurtureCall × Except ε Unit :=
        if ["personalized_content", "case_study", "educational_content"].contains step.step_type then
          ([NurtureCall.schedule_posts "linkedin" content execution_time],
           env.schedule_posts content execution_time)
        else ([], .ok ())
      match posting with
      | (tp, .error e) => (t2 ++ tp, .error e)
      | (tp, .ok _) =>
        let note := "Scheduled " ++ step.step_type ++ " for " ++ toString execution_time
        (t2 ++ tp ++ [NurtureCall.add_note deal_id note], env.add_note deal_id note)

/-- The step-scheduling loop inside NurtureSequence.initiate_sequence: every
step executes at current_time + its delay, in list order, and the first
failure aborts the remaining steps. -/
def schedule_sequence {ε : Type} (env : NurtureEnv ε) (lead_data : LeadData)
    (deal_id : ℤ) (current_time : ℤ) :
    List SequenceStep → List NurtureCall × Except ε Unit
  | [] => ([], .ok ())
  | step :: rest =>
    let execution_time := current_time + step.delay
    match schedule_step env step lead_data deal_id execution_time with
    | (t, .error e) => (t, .error e)
    | (t, .ok _) =>
      let next := schedule_sequence env lead_data deal_id current_time rest
      (t ++ next.1, next.2)

/-- NurtureSequence.initiate_sequence from src/nurture.py:71-102: create the
Pipedrive organization, person and deal, look up the step table for the
tier, schedule every step at now + delay, and return the deal id. -/
def initiate_sequence {ε : Type} (env : NurtureEnv ε) (now : ℤ) (lead_data : LeadData)
    (sequence_type : String) : List NurtureCall × Except (NurtureError ε) ℤ :=
  let t1 := [NurtureCall.create_organization lead_data]
  match env.create_organization lead_data with
  | .error e => (t1, .error (.external e))
  | .ok org_id =>
    let t2 := t1 ++ [NurtureCall.create_person lead_data org_id]
    match env.create_person lead_data org_id with
    | .error e => (t2, .error (.external e))
    | .ok person_id =>
      let t3 := t2 ++ [NurtureCall.create_deal lead_data person_id org_id]
      match env.create_deal lead_data person_id org_id with
      | .error e => (t3, .error (.external e))
      | .ok deal_id =>
        match sequence_steps sequence_type with
        | none => (t3, .error (.key_error sequence_type))
        | some sequence =>
          match schedule_sequence env lead_data deal_id now sequence with
          | (tc, .error e) => (t3 ++ tc, .error (.external e))
          | (tc, .ok _) => (t3 ++ tc, .ok deal_id)

/-- NurtureSequence.handle_sequence_response from src/nurture.py:162-198:
always note the raw response on the deal first; a positive response adds a
24-hour follow-up activity, a negative response adds a 48-hour review
activity, anything else changes nothing further. -/
def handle_sequence_response {ε : Type} (env : NurtureEnv ε) (now : ℤ) (deal_id : ℤ)
    (response_type response_content : String) : List NurtureCall × Except ε Unit :=
  let note := "Sequence Response (" ++ response_type ++ "): " ++ response_content
  let t1 := [NurtureCall.add_note deal_id note]
  match env.add_note deal_id note with
  | .error e => (t1, .error e)
  | .ok _ =>
    if response_type = "positive" then
      let subject := "Positive Sequence Response - Priority Follow-up"
      (t1 ++ [NurtureCall.create_activity deal_id "follow_up" subject (now + timedelta_hours 24)],
       env.create_activity deal_id "follow_up" subject (now + timedelta_hours 24))
    else if response_type = "negative" then
      let subject := "Review Negative Sequence Response"
      (t1 ++ [NurtureCall.create_activity deal_id "review" subject (now + timedelta_days 2)],
       env.create_activity deal_id "review" subject (now + timedelta_days 2))
    else (t1, .ok ())

/-- An always-succeeding NurtureEnv built from total oracle functions: the
created record ids and the generated content are arbitrary, every call
returns ok. -/
def pure_env (ε : Type) (fo : LeadData → ℤ) (fp : LeadData → ℤ → ℤ)
    (fd : LeadData → ℤ → ℤ → ℤ) (fg : LeadData → String) : NurtureEnv ε where
  create_organization := fun l => .ok (fo l)
  create_person := fun l o => .ok (fp l o)
  create_deal := fun l p o => .ok (fd l p o)
  create_activity := fun _ _ _ _ => .ok ()
  add_note := fun _ _ => .ok ()
  generate_step_content := fun l => .ok (fg l)
  schedule_posts := fun _ _ => .ok ()

/-- True exactly on the create_activity calls of a nurture trace. -/
def NurtureCall.is_create_activity : NurtureCall → Bool
  | .create_activity _ _ _ _ => true
  | _ => false

/-- Claim C5: with every collaborator call succeeding, initiating a
high_intent sequence at time now returns the id of the Pipedrive deal it
created, and the activities it schedules are exactly three, for the three
nurture steps, due at now plus 1, 3 and 7 days, in that order. -/
theorem initiate_sequence_high_intent (ε : Type) (fo : LeadData → ℤ)
    (fp : LeadData → ℤ → ℤ) (fd : LeadData → ℤ → ℤ → ℤ) (fg : LeadData → String)
    (now : ℤ) (lead_data : LeadData) :
    (initiate_sequence (pure_env ε fo fp fd fg) now lead_data "high_intent").2
      = .ok (fd lead_data (fp lead_data (fo lead_data)) (fo lead_data)) ∧
    (initiate_sequence (pure_env ε fo fp fd fg) now lead_data "high_intent").1.filter
        NurtureCall.is_create_activity
      = [NurtureCall.create_activity (fd lead_data (fp lead_data (fo lead_data)) (fo lead_data))
           "personalized_content" "Nurture Step: personalized_content" (now + timedelta_days 1),
         NurtureCall.create_activity (fd lead_data (fp lead_data (fo lead_data)) (fo lead_data))
           "case_study" "Nurture Step: case_study" (now + timedelta_days 3),
         NurtureCall.create_activity (fd lead_data (fp lead_data (fo lead_data)) (fo lead_data))
           "demo_invitation" "Nurture Step: demo_invitation" (now + timedelta_days 7)] := by
  constructor
  · rfl
  · rfl

/-- Claim C6: every handle_sequence_response call issues the CRM note with
the raw response as its first collaborator call; when the response type is
"negative" (and the note call succeeds) the only further call is a single
review activity due 48 hours after the call time, so no scheduled step time
is touched; for a response type that is neither "positive" nor "negative"
the note is the only call and nothing else happens. -/
theorem handle_sequence_response_spec {ε : Type} (env : NurtureEnv ε)
    (now deal_id : ℤ) (response_type response_content : String)
    (hnote : env.add_note deal_id
        ("Sequence Response (" ++ response_type ++ "): " ++ response_content) = .ok ()) :
    (∃ rest, (handle_sequence_response env now deal_id response_type response_content).1
        = NurtureCall.add_note deal_id
            ("Sequence Response (" ++ response_type ++ "): " ++ response_content) :: rest) ∧
    (response_type = "negative" →
      handle_sequence_response env now deal_id response_type response_content
        = ([NurtureCall.add_note deal_id
              ("Sequence Response (" ++ response_type ++ "): " ++ response_content),
            NurtureCall.create_activity deal_id "review" "Review Negative Sequence Response"
              (now + timedelta_hours 48)],
           env.create_activity deal_id "review" "Review Negative Sequence Response"
             (now + timedelta_hours 48))) ∧
    (response_type ≠ "positive" → response_type ≠ "negative" →
      handle_sequence_response env now deal_id response_type response_content
        = ([NurtureCall.add_note deal_id
              ("Sequence Response (" ++ response_type ++ "): " ++ response_content)], .ok ())) := by
  refine ⟨?_, ?_, ?_⟩
  · simp only [handle_sequence_response, hnote]
    split_ifs <;> exact ⟨_, rfl⟩
  · intro hneg
    subst hneg
    simp only [handle_sequence_response, hnote]
    rw [if_neg (by decide : ¬ ("negative" = "positive"))]
    norm_num [timedelta_days, timedelta_hours]
  · intro hpos hneg
    simp only [handle_sequence_response, hnote, if_neg hpos, if_neg hneg]

/-- Witness for claim C6 at a concrete environment, deal and negative
response. -/
theorem handle_sequence_response_spec_witness :
    (∃ rest, (handle_sequence_response (pure_env String (fun _ => 0) (fun _ _ => 0)
          (fun _ _ _ => 0) (fun _ => "c")) 0 5 "negative" "not interested").1
        = NurtureCall.add_note 5
            ("Sequence Response (" ++ "negative" ++ "): " ++ "not interested") :: rest) ∧
    ("negative" = "negative" →
      handle_sequence_response (pure_env String (fun _ => 0) (fun _ _ => 0)
          (fun _ _ _ => 0) (fun _ => "c")) 0 5 "negative" "not interested"
        = ([NurtureCall.add_note 5
              ("Sequence Response (" ++ "negative" ++ "): " ++ "not interested"),
            NurtureCall.create_activity 5 "review" "Review Negative Sequence Response"
              (0 + timedelta_hours 48)],
           (pure_env String (fun _ => 0) (fun _ _ => 0)
              (fun _ _ _ => 0) (fun _ => "c")).create_activity 5 "review"
             "Review Negative Sequence Response" (0 + timedelta_hours 48))) ∧
    ("negative" ≠ "positive" → "negative" ≠ "negative" →
      handle_sequence_response (pure_env String (fun _ => 0) (fun _ _ => 0)
          (fun _ _ _ => 0) (fun _ => "c")) 0 5 "negative" "not interested"
        = ([NurtureCall.add_note 5
              ("Sequence Response (" ++ "negative" ++ "): " ++ "not interested")], .ok ())) :=
  handle_sequence_response_spec (pure_env String (fun _ => 0) (fun _ _ => 0)
    (fun _ _ _ => 0) (fun _ => "c")) 0 5 "negative" "not interested" rfl

/-- Claim C8: _prepare_lead_data is a pure transformation: it issues no
collaborator call, and two calls on the same Response yield field-for-field
identical lead dicts. -/
theorem prepare_lead_data_pure (r r' : Response) (h : r = r') :
    (prepare_lead_data r).1 = [] ∧ (prepare_lead_data r').1 = [] ∧
    (prepare_lead_data r).2.company = (prepare_lead_data r').2.company ∧
    (prepare_lead_data r).2.industry = (prepare_lead_data r').2.industry ∧
    (prepare_lead_data r).2.employee_count = (prepare_lead_data r').2.employee_count ∧
    (prepare_lead_data r).2.estimated_revenue = (prepare_lead_data r').2.estimated_revenue ∧
    (prepare_lead_data r).2.linkedin_url = (prepare_lead_data r').2.linkedin_url ∧
    (prepare_lead_data r).2.interest_level = (prepare_lead_data r').2.interest_level ∧
    (prepare_lead_data r).2.initial_response = (prepare_lead_data r').2.initial_response ∧
    (prepare_lead_data r).2.platform = (prepare_lead_data r').2.platform ∧
    (prepare_lead_data r).2.response_time = (prepare_lead_data r').2.response_time ∧
    (prepare_lead_data r).2.decision_maker = (prepare_lead_data r').2.decision_maker := by
  subst h
  exact ⟨rfl, rfl, rfl, rfl, rfl, rfl, rfl, rfl, rfl, rfl, rfl, rfl⟩

/-- Witness for claim C8 at a concrete response. -/
theorem prepare_lead_data_pure_witness :
    (prepare_lead_data response_none_small).1 = [] ∧
    (prepare_lead_data response_none_small).1 = [] ∧
    (prepare_lead_data response_none_small).2.company = (prepare_lead_data response_none_small).2.company ∧
    (prepare_lead_data response_none_small).2.industry = (prepare_lead_data response_none_small).2.industry ∧
    (prepare_lead_data response_none_small).2.employee_count = (prepare_lead_data response_none_small).2.employee_count ∧
    (prepare_lead_data response_none_small).2.estimated_revenue = (prepare_lead_data response_none_small).2.estimated_revenue ∧
    (prepare_lead_data response_none_small).2.linkedin_url = (prepare_lead_data response_none_small).2.linkedin_url ∧
    (prepare_lead_data response_none_small).2.interest_level = (prepare_lead_data response_none_small).2.interest_level ∧
    (prepare_lead_data response_none_small).2.initial_response = (prepare_lead_data response_none_small).2.initial_response ∧
    (prepare_lead_data response_none_small).2.platform = (prepare_lead_data response_none_small).2.platform ∧
    (prepare_lead_data response_none_small).2.response_time = (prepare_lead_data response_none_small).2.response_time ∧
    (prepare_lead_data response_none_small).2.decision_maker = (prepare_lead_data response_none_small).2.decision_maker :=
  prepare_lead_data_pure response_none_small response_none_small rfl

/-!
Python string primitives used by src/contentGen.py, modelled on the list of
code points so that they compute by structural recursion. Python len and
slicing count code points, exactly like List Char.
-/

/-- Python str.lower(). -/
def py_lower (s : String) : String := String.mk (s.data.map Char.toLower)

/-- Python len(s). -/
def py_len (s : String) : ℕ := s.data.length

/-- Python slice s[:n]. -/
def py_take (s : String) (n : ℕ) : String := String.mk (s.data.take n)

/-- Helper for Python str.split() with no argument: split on runs of
whitespace, dropping empty tokens; tok is the current token, reversed. -/
def split_whitespace_aux (tok : List Char) : List Char → List (List Char)
  | [] => if tok.isEmpty then [] else [tok.reverse]
  | c :: rest =>
    if c.isWhitespace then
      if tok.isEmpty then split_whitespace_aux [] rest
      else tok.reverse :: split_whitespace_aux [] rest
    else split_whitespace_aux (c :: tok) rest

/-- Python " ".join(tokens). -/
def join_spaces : List (List Char) → List Char
  | [] => []
  | [t] => t
  | t :: ts => t ++ ' ' :: join_spaces ts

/-- The whitespace normalization in _post_process_content:
" ".join(post.split()). -/
def normalize_whitespace (s : String) : String :=
  String.mk (join_spaces (split_whitespace_aux [] s.data))

/-- Helper for the Python substring test "pat in s". -/
def py_contains_aux (pat : List Char) : List Char → Bool
  | [] => pat.isEmpty
  | c :: rest => pat.isPrefixOf (c :: rest) || py_contains_aux pat rest

/-- Python substring test "pat in s". -/
def py_contains (s pat : String) : Bool := py_contains_aux pat.data s.data

/-- Helper for Python s.replace(old, new): replace non-overlapping
occurrences left to right; the fuel is the length of the remaining text,
which bounds the number of steps, keeping the recursion structural. -/
def py_replace_aux (pat rep : List Char) : ℕ → List Char → List Char
  | 0, s => s
  | _ + 1, [] => []
  | fuel + 1, c :: rest =>
    if pat.isPrefixOf (c :: rest) then
      rep ++ py_replace_aux pat rep fuel ((c :: rest).drop pat.length)
    else c :: py_replace_aux pat rep fuel rest

/-- Python s.replace(old, new). -/
def py_replace (s pat rep : String) : String :=
  String.mk (py_replace_aux pat.data rep.data s.data.length s.data)

/-- One industry entry of GPTContentGenerator.industry_templates from
src/contentGen.py:22-44. -/
structure IndustryTemplate where
  pain_points : List String
  tone : String
  content_length : List (String × ℕ)
deriving DecidableEq

/-- The retail template from src/contentGen.py. -/
def retail_template : IndustryTemplate :=
  { pain_points :=
      ["High transaction fees eating into margins",
       "Complex pricing structures",
       "Long settlement times",
       "Integration difficulties with POS systems"],
    tone := "professional yet approachable",
    content_length := [("linkedin", 1200), ("twitter", 280)] }

/-- The hospitality template from src/contentGen.py. -/
def hospitality_template : IndustryTemplate :=
  { pain_points :=
      ["Customer card decline rates",
       "International payment processing fees",
       "Integration with booking systems",
       "Seasonal cash flow management"],
    tone := "friendly and solution-focused",
    content_length := [("linkedin", 1000), ("twitter", 280)] }

/-- The mutable configuration state of a GPTContentGenerator: its
industry_templates dict. -/
structure GPTContentGenerator where
  industry_templates : List (String × IndustryTemplate)
deriving DecidableEq

/-- The generator state right after GPTContentGenerator.__init__. -/
def initial_generator : GPTContentGenerator :=
  { industry_templates := [("retail", retail_template), ("hospitality", hospitality_template)] }

/-- Python dict lookup d.get(key). -/
def dict_get {α : Type} (d : List (String × α)) (key : String) : Option α :=
  match d.find? (fun p => p.1 == key) with
  | some p => some p.2
  | none => none

/-- In-place overwrite of the value stored under an existing dict key. -/
def dict_set {α : Type} (d : List (String × α)) (key : String) (value : α) :
    List (String × α) :=
  d.map (fun p => if p.1 == key then (key, value) else p)

/-- Errors raised by create_industry_posts: the explicit ValueError for an
unknown industry, and the KeyError from indexing content_length with an
unknown platform. -/
inductive GenError where
  | value_error (industry : String)
  | key_error (key : String)
deriving DecidableEq

/-- GPTContentGenerator._create_platform_prompt from src/contentGen.py. -/
def create_platform_prompt (industry platform : String) (pain_points : List String)
    (value_prop tone : String) (max_length : ℕ) : String :=
  "Create a " ++ platform ++ " post for " ++ industry ++
    " businesses about payment processing solutions.\n" ++
  "Key points to include:\n" ++
  "- Main value proposition: " ++ value_prop ++ "\n" ++
  "- Address these pain points: " ++ String.intercalate ", " pain_points ++ "\n" ++
  "Requirements:\n" ++
  "- Use a " ++ tone ++ " tone\n" ++
  "- Maximum length: " ++ toString max_length ++ " characters\n" ++
  "- Include relevant hashtags for " ++ platform ++ "\n" ++
  "- Focus on ROI and cost savings\n" ++
  "- Include a clear call to action\n" ++
  "The post should be engaging, professional, and highlight the cost-saving " ++
    "benefits while addressing specific industry pain points."

/-- GPTContentGenerator._add_tracking_parameters from src/contentGen.py:
append UTM parameters to every "http" occurrence. -/
def add_tracking_parameters (post : String) (platform : String) : String :=
  if py_contains post "http" then
    let utm_params := "?utm_source=" ++ platform ++
      "&utm_medium=social&utm_campaign=payment_processing"
    py_replace post "http" ("http" ++ utm_params)
  else post

/-- GPTContentGenerator._post_process_content from src/contentGen.py:
normalize whitespace, truncate twitter posts above 280 characters to 277
characters plus an ellipsis, then add tracking parameters. -/
def post_process_content (posts : List String) (platform : String) : List String :=
  posts.map (fun post =>
    let processed := normalize_whitespace post
    let processed :=
      if platform = "twitter" then
        if py_len processed > 280 then py_take processed 277 ++ "..." else processed
      else processed
    add_tracking_parameters processed platform)

/-- GPTContentGenerator._generate_platform_specific_content from
src/contentGen.py: look up the platform length limit (KeyError when the
platform is unknown), build the prompt, ask the GPT oracle for count
completions and post-process them. -/
def generate_platform_specific_content (gpt : String → ℕ → List String)
    (industry platform : String) (pain_points : List String) (value_prop : String)
    (template : IndustryTemplate) (count : ℕ) : Except GenError (List String) :=
  match dict_get template.content_length platform with
  | none => .error (.key_error platform)
  | some max_length =>
    let prompt := create_platform_prompt industry platform pain_points value_prop
      template.tone max_length
    let posts := gpt prompt count
    .ok (post_process_content posts platform)

/-- The platform loop of create_industry_posts, building the
platform-to-posts dict in iteration order. -/
def generate_for_platforms (gpt : String → ℕ → List String) (industry : String)
    (pain_points : List String) (value_prop : String) (template : IndustryTemplate)
    (count : ℕ) : List String → Except GenError (List (String × List String))
  | [] => .ok []
  | platform :: rest =>
    match generate_platform_specific_content gpt industry platform pain_points
        value_prop template count with
    | .error e => .error e
    | .ok posts =>
      match generate_for_platforms gpt industry pain_points value_prop template count rest with
      | .error e => .error e
      | .ok others => .ok ((platform, posts) :: others)

/-- GPTContentGenerator.create_industry_posts from src/contentGen.py:50-98.
The template lookup lowercases the industry; a non-empty custom_pain_points
list is appended, in place, to the template's shared pain_points list (the
Python code extends the aliased list), so the generator state is returned
alongside the result. -/
def create_industry_posts (gpt : String → ℕ → List String) (gen : GPTContentGenerator)
    (industry : String) (custom_pain_points : List String) (value_prop : String)
    (platforms : List String) (post_count : ℕ) :
    GPTContentGenerator × Except GenError (List (String × List String)) :=
  match dict_get gen.industry_templates (py_lower industry) with
  | none => (gen, .error (.value_error industry))
  | some template =>
    let all_pain_points :=
      if custom_pain_points.isEmpty then template.pain_points
      else template.pain_points ++ custom_pain_points
    let template := { template with pain_points := all_pain_points }
    let gen :=
      if custom_pain_points.isEmpty then gen
      else { gen with industry_templates :=
               dict_set gen.industry_templates (py_lower industry) template }
    (gen, generate_for_platforms gpt industry all_pain_points value_prop template
      post_count platforms)

/-- A GPT completion of exactly 281 characters that starts with "http": a
perfectly legal collaborator output for the end-to-end scenario. -/
def bad_post : String := String.mk ('h' :: 't' :: 't' :: 'p' :: List.replicate 277 'a')

/-- A GPT oracle that answers every prompt with count copies of bad_post. -/
def gpt_bad : String → ℕ → List String := fun _ count => List.replicate count bad_post

set_option maxRecDepth 100000 in
/-- Claim C7, exhibiting the bug: in the end-to-end scenario (retail, two
custom pain points, supplied value prop, both platforms, five posts per
platform) the returned mapping does have exactly the keys linkedin and
twitter with five entries each, but when the GPT completions are 281
characters starting with "http", every twitter entry comes out 349
characters long: _post_process_content truncates to 280 characters and only
afterwards _add_tracking_parameters splices 69 characters of UTM parameters
into the "http", defeating the documented 280-character cap. -/
theorem create_industry_posts_twitter_overflow :
    ((create_industry_posts gpt_bad initial_generator "retail"
        ["Outdated payment hardware", "Chargeback disputes"]
        "30% reduction in processing fees" ["linkedin", "twitter"] 5).2.map
      (fun posts =>
        (posts.map Prod.fst,
         posts.map (fun p => p.2.length),
         ((dict_get posts "twitter").getD []).map py_len)))
      = .ok (["linkedin", "twitter"], [5, 5], [349, 349, 349, 349, 349]) := by
  with_unfolding_all rfl

/-- Claim C9: a create_industry_posts call with non-empty custom pain points
extends the stored retail template's pain_points list in place, leaving every
other part of the generator state unchanged, so the state differs from the
initial one; a later call for the same industry with no custom pain points
then generates from the accumulated pain-point list of the mutated state. -/
theorem create_industry_posts_mutates_templates (gpt : String → ℕ → List String)
    (value_prop : String) (platforms : List String) (post_count : ℕ)
    (custom_pain_points : List String) (h : custom_pain_points ≠ []) :
    (create_industry_posts gpt initial_generator "retail" custom_pain_points
        value_prop platforms post_count).1
      = { industry_templates :=
            [("retail", { retail_template with
                pain_points := retail_template.pain_points ++ custom_pain_points }),
             ("hospitality", hospitality_template)] } ∧
    (create_industry_posts gpt initial_generator "retail" custom_pain_points
        value_prop platforms post_count).1 ≠ initial_generator ∧
    (create_industry_posts gpt
        (create_industry_posts gpt initial_generator "retail" custom_pain_points
          value_prop platforms post_count).1
        "retail" [] value_prop platforms post_count)
      = ((create_industry_posts gpt initial_generator "retail" custom_pain_points
            value_prop platforms post_count).1,
         generate_for_platforms gpt "retail"
           (retail_template.pain_points ++ custom_pain_points) value_prop
           { retail_template with
               pain_points := retail_template.pain_points ++ custom_pain_points }
           post_count platforms) := by
  obtain ⟨c, cs, rfl⟩ : ∃ c cs, custom_pain_points = c :: cs := by
    cases custom_pain_points with
    | nil => exact absurd rfl h
    | cons c cs => exact ⟨c, cs, rfl⟩
  have h1 : (create_industry_posts gpt initial_generator "retail" (c :: cs)
      value_prop platforms post_count).1
    = { industry_templates :=
          [("retail", { retail_template with
              pain_points := retail_template.pain_points ++ c :: cs }),
           ("hospitality", hospitality_template)] } := rfl
  refine ⟨h1, ?_, ?_⟩
  · rw [h1]
    intro heq
    simp [initial_generator, retail_template, hospitality_template] at heq
  · rw [h1]
    rfl

/-- Witness for claim C9 at a concrete oracle and the pain points from
main.py. -/
theorem create_industry_posts_mutates_templates_witness :
    (create_industry_posts (fun _ count => List.replicate count "post") initial_generator
        "retail" ["Outdated payment hardware", "Chargeback disputes"]
        "30% reduction in processing fees" ["linkedin"] 1).1
      = { industry_templates :=
            [("retail", { retail_template with
                pain_points := retail_template.pain_points ++
                  ["Outdated payment hardware", "Chargeback disputes"] }),
             ("hospitality", hospitality_template)] } ∧
    (create_industry_posts (fun _ count => List.replicate count "post") initial_generator
        "retail" ["Outdated payment hardware", "Chargeback disputes"]
        "30% reduction in processing fees" ["linkedin"] 1).1 ≠ initial_generator ∧
    (create_industry_posts (fun _ count => List.replicate count "post")
        (create_industry_posts (fun _ count => List.replicate count "post") initial_generator
          "retail" ["Outdated payment hardware", "Chargeback disputes"]
          "30% reduction in processing fees" ["linkedin"] 1).1
        "retail" [] "30% reduction in processing fees" ["linkedin"] 1)
      = ((create_industry_posts (fun _ count => List.replicate count "post") initial_generator
            "retail" ["Outdated payment hardware", "Chargeback disputes"]
            "30% reduction in processing fees" ["linkedin"] 1).1,
         generate_for_platforms (fun _ count => List.replicate count "post") "retail"
           (retail_template.pain_points ++
             ["Outdated payment hardware", "Chargeback disputes"])
           "30% reduction in processing fees"
           { retail_template with
               pain_points := retail_template.pain_points ++
                 ["Outdated payment hardware", "Chargeback disputes"] }
           1 ["linkedin"]) :=
  create_industry_posts_mutates_templates (fun _ count => List.replicate count "post")
    "30% reduction in processing fees" ["linkedin"] 1
    ["Outdated payment hardware", "Chargeback disputes"] (by simp)

end Martech
